import Mathlib

/-!
Shallow embedding of the netsim sweep program (src/main.cc) and proofs about
its orchestration loop, traffic pattern and flow-statistics reduction.

The external ns-3 engine (PHY/MAC models, scheduler, routing) is out of scope;
the embedding covers the program's own logic: the simulation constants, the
grid placement parameters handed to the position allocator, the application
setup loop, the flow-statistics reporting loop, the animation export, the
artifact names, and the top-level sweep in `main`.  Double arithmetic on
finite values is idealized as rational arithmetic; division by zero keeps its
IEEE behavior (NaN or a signed infinity) through the `DVal` type.
-/

namespace Netsim

/-- Grid width used by the position allocator (src/main.cc line 26). -/
def kGridWidth : ℕ := 6

/-- Grid origin x coordinate (line 27). -/
def kMinX : ℚ := 0

/-- Grid origin y coordinate (line 28). -/
def kMinY : ℚ := 0

/-- Horizontal grid spacing (line 29). -/
def kDeltaX : ℚ := 5

/-- Vertical grid spacing (line 30). -/
def kDeltaY : ℚ := 10

/-- Fixed application port (line 31). -/
def kPort : ℕ := 443

/-- Fixed client packet size in bytes (line 32). -/
def kPacketSize : ℕ := 512

/-- Application and simulation start time, in seconds (line 33). -/
def kSimulationStartTime : ℚ := 1

/-- Application and simulation stop time, in seconds (line 34). -/
def kSimulationStopTime : ℚ := 25

/-- Value of an IEEE double expression as this program observes it: a finite
value (idealized as a rational), a signed infinity, or NaN. -/
inductive DVal where
  | finite (q : ℚ)
  | posInf
  | negInf
  | nan
  deriving Repr, DecidableEq

/-- Double division.  Finite by nonzero finite is idealized as exact rational
division; division by zero yields NaN for 0/0 and a signed infinity otherwise,
as IEEE 754 prescribes for the C++ expression in the source. -/
def ddiv (a b : ℚ) : DVal :=
  if b = 0 then
    if a = 0 then .nan else if 0 < a then .posInf else .negInf
  else .finite (a / b)

/-- Multiplication of a double value by a finite constant. -/
def dmul (v : DVal) (c : ℚ) : DVal :=
  match v with
  | .finite q => .finite (q * c)
  | .posInf => if 0 < c then .posInf else if c < 0 then .negInf else .nan
  | .negInf => if 0 < c then .negInf else if c < 0 then .posInf else .nan
  | .nan => .nan

/-- Raw per-flow counters read from the flow monitor (the FlowStats fields
that PrintFlowStatistics consumes).  `delaySum` is a time value in seconds. -/
structure FlowRecord where
  txBytes : ℕ
  rxBytes : ℕ
  txPackets : ℕ
  rxPackets : ℕ
  lostPackets : ℕ
  delaySum : ℚ
  deriving Repr, DecidableEq

/-- The all-zero record produced when `stats[i]` value-initializes a missing
entry of the std::map flow-statistics container. -/
def zeroFlowRecord : FlowRecord :=
  { txBytes := 0, rxBytes := 0, txPackets := 0, rxPackets := 0
  , lostPackets := 0, delaySum := 0 }

/-- One flow's block of console output from PrintFlowStatistics.  A printed
"None" is modelled as `none`. -/
structure FlowReportLine where
  flowId : ℕ
  txBitrateKbps : Option ℚ
  rxBitrateKbps : Option ℚ
  txPackets : ℕ
  rxPackets : ℕ
  meanDelay : Option ℚ
  lossRatioPercent : DVal
  deriving Repr, DecidableEq

/-- The elapsed run duration PrintFlowStatistics computes (src/main.cc
line 130): stop time minus start time. -/
def simulationTime : ℚ := kSimulationStopTime - kSimulationStartTime

/-- One iteration of the reporting loop body in PrintFlowStatistics
(src/main.cc lines 131-155): reduce flow `i`'s raw counters to the printed
metrics.  TX/RX bitrates and mean delay are guarded by `> 0` tests and print
"None" otherwise; the loss ratio is computed unconditionally in double
arithmetic with no guard on `txPackets = 0`. -/
def reduceFlow (durationSeconds : ℚ) (i : ℕ) (s : FlowRecord) : FlowReportLine :=
  { flowId := i
  , txBitrateKbps :=
      if 0 < s.txBytes then some ((s.txBytes : ℚ) * 8 / (durationSeconds * 1000)) else none
  , rxBitrateKbps :=
      if 0 < s.rxBytes then some ((s.rxBytes : ℚ) * 8 / (durationSeconds * 1000)) else none
  , txPackets := s.txPackets
  , rxPackets := s.rxPackets
  , meanDelay :=
      if 0 < s.rxPackets then some (s.delaySum / (s.rxPackets : ℚ)) else none
  , lossRatioPercent := dmul (ddiv (s.lostPackets : ℚ) (s.txPackets : ℚ)) 100 }

/-- Reading `stats[i]` from the flow-statistics map: the stored record when
the key is present, otherwise the value-initialized all-zero record that
std::map's operator[] default-constructs. -/
def getStats (stats : List (ℕ × FlowRecord)) (i : ℕ) : FlowRecord :=
  (stats.lookup i).getD zeroFlowRecord

/-- The flow identifiers the reporting loop iterates over:
`for (int i = 2; i <= nWifi; i++)`, i.e. 2, 3, ..., nWifi. -/
def reportedFlowIds (nWifi : ℕ) : List ℕ := List.range' 2 (nWifi - 1)

/-- PrintFlowStatistics (src/main.cc lines 125-157) as the list of per-flow
report lines it prints, one for each identifier in 2..nWifi. -/
def PrintFlowStatistics (stats : List (ℕ × FlowRecord)) (nWifi : ℕ) : List FlowReportLine :=
  (reportedFlowIds nWifi).map (fun i => reduceFlow simulationTime i (getStats stats i))

/-- Configuration of one UdpEchoClient installed by SetupApplications. -/
structure ClientApp where
  node : ℕ
  destNode : ℕ
  destPort : ℕ
  maxPackets : ℕ
  intervalMs : ℕ
  packetSize : ℕ
  deriving Repr, DecidableEq

/-- The applications SetupApplications installs: the echo clients with their
destinations, the node indices carrying a listening echo server, and the
server's port. -/
structure TrafficAssignment where
  clients : List ClientApp
  sinks : List ℕ
  sinkPort : ℕ
  deriving Repr, DecidableEq

/-- SetupApplications (src/main.cc lines 105-122): for every node index
i < nWifi install one UdpEchoClient on node i addressing node `(i+1) % nWifi`
at port kPort, then install a single UdpEchoServer on node `nWifi - 1`
listening on kPort.  The source performs no validation of nWifi. -/
def SetupApplications (nWifi interval maxPackets : ℕ) : TrafficAssignment :=
  { clients := (List.range nWifi).map (fun i =>
      { node := i, destNode := (i + 1) % nWifi, destPort := kPort
      , maxPackets := maxPackets, intervalMs := interval, packetSize := kPacketSize })
  , sinks := [nWifi - 1]
  , sinkPort := kPort }

/-- Position assigned to node i by the RowFirst GridPositionAllocator
configured in SetupWifiNodes (src/main.cc lines 56-62): column `i % kGridWidth`
and row `i / kGridWidth`, scaled by the grid spacings from the origin. -/
def gridPosition (i : ℕ) : ℚ × ℚ :=
  (kMinX + ((i % kGridWidth : ℕ) : ℚ) * kDeltaX,
   kMinY + ((i / kGridWidth : ℕ) : ℚ) * kDeltaY)

/-- Position ExportAnimation assigns to node i in the animation trace
(src/main.cc line 167): `(i * 10, 0)`, independent of the mobility model. -/
def animPosition (i : ℕ) : ℚ × ℚ := (((i : ℚ)) * 10, 0)

/-- Name of the animation artifact for an nWifi-node run (line 162). -/
def animFileName (nWifi : ℕ) : String :=
  "anim-" ++ toString nWifi ++ "-nodes.xml"

/-- Name of the flow-report artifact for an nWifi-node run (line 197). -/
def flowmonFileName (nWifi : ℕ) : String :=
  "flowmonitor-" ++ toString nWifi ++ "-nodes.xml"

/-- ExportAnimation (src/main.cc lines 160-169): the animation artifact name
and the constant position recorded for each of the nWifi nodes. -/
def ExportAnimation (nWifi : ℕ) : String × List (ℕ × (ℚ × ℚ)) :=
  (animFileName nWifi, (List.range nWifi).map (fun i => (i, animPosition i)))

/-- Observable steps of one run, in program order. -/
inductive RunEvent where
  | configure (nWifi : ℕ)
  | createNodes (nWifi : ℕ)
  | setupNetwork (nWifi : ℕ)
  | installFlowMonitor (nWifi : ℕ)
  | installApps (nWifi : ℕ) (ta : TrafficAssignment)
  | engineRun (nWifi : ℕ)
  | engineDestroy (nWifi : ℕ)
  | writeArtifact (name : String)
  | report (lines : List FlowReportLine)
  deriving Repr, DecidableEq

/-- RunSimulation (src/main.cc lines 172-203) as its straight-line sequence of
steps: configure, create the nodes, set up the network, install the flow
monitor, install the applications, run the engine, destroy it, serialize the
flow report and animation artifacts, and print the statistics reduced from
the flow records `stats` the engine produced. -/
def RunSimulation (nWifi interval maxPackets : ℕ)
    (stats : List (ℕ × FlowRecord)) : List RunEvent :=
  [ .configure nWifi
  , .createNodes nWifi
  , .setupNetwork nWifi
  , .installFlowMonitor nWifi
  , .installApps nWifi (SetupApplications nWifi interval maxPackets)
  , .engineRun nWifi
  , .engineDestroy nWifi
  , .writeArtifact (flowmonFileName nWifi)
  , .writeArtifact (ExportAnimation nWifi).1
  , .report (PrintFlowStatistics stats nWifi) ]

/-- The sweep in main (src/main.cc lines 216-219): one run for each node
count from 2 to 30 inclusive, in loop order.  `statsOf n` is the flow-record
snapshot the engine delivers for the n-node run. -/
def mainSweep (interval maxPackets : ℕ)
    (statsOf : ℕ → List (ℕ × FlowRecord)) : List (ℕ × List RunEvent) :=
  (List.range' 2 29).map (fun n => (n, RunSimulation n interval maxPackets (statsOf n)))

/-- The flattened event trace of the whole sweep, in execution order. -/
def mainTrace (interval maxPackets : ℕ)
    (statsOf : ℕ → List (ℕ × FlowRecord)) : List RunEvent :=
  (mainSweep interval maxPackets statsOf).flatMap Prod.snd

/-- Names of the artifact files a trace writes, in order. -/
def artifactNames (tr : List RunEvent) : List String :=
  tr.filterMap (fun e =>
    match e with
    | .writeArtifact name => some name
    | _ => none)

/-- C1: the reporting loop computes lossRatioPercent = lostPackets / txPackets
* 100 unconditionally, with no guard on txPackets = 0: whenever txPackets > 0
the result is exactly the finite value lostPackets/txPackets*100, and when
txPackets = 0 the division is still performed and yields the IEEE
implementation-defined value, NaN or positive infinity. -/
theorem lossRatioPercent_unguarded (d : ℚ) (i : ℕ) (s : FlowRecord) :
    (0 < s.txPackets →
      (reduceFlow d i s).lossRatioPercent
        = DVal.finite ((s.lostPackets : ℚ) / (s.txPackets : ℚ) * 100)) ∧
    (s.txPackets = 0 →
      (reduceFlow d i s).lossRatioPercent = DVal.nan ∨
      (reduceFlow d i s).lossRatioPercent = DVal.posInf) := by
  constructor
  · intro h
    have hne : ((s.txPackets : ℚ)) ≠ 0 := Nat.cast_ne_zero.mpr h.ne'
    simp [reduceFlow, ddiv, dmul, hne]
  · intro h
    rcases Nat.eq_zero_or_pos s.lostPackets with h0 | hpos
    · left
      simp [reduceFlow, ddiv, dmul, h, h0]
    · right
      have hq : (0 : ℚ) < (s.lostPackets : ℚ) := by exact_mod_cast hpos
      simp [reduceFlow, ddiv, dmul, h, hq, hq.ne']

/-- Witness for C1 at the spec's example: lostPackets = 2, txPackets = 10
gives a loss ratio of exactly 20. -/
theorem lossRatioPercent_unguarded_witness :
    (reduceFlow 24 2 ⟨0, 0, 10, 0, 2, 0⟩).lossRatioPercent = DVal.finite 20 := by
  have h := (lossRatioPercent_unguarded 24 2 ⟨0, 0, 10, 0, 2, 0⟩).1 (by decide)
  rw [h]
  norm_num

/-- C2: for every flow record and positive run duration, the reduced TX
bitrate equals txBytes * 8 / (durationSeconds * 1000) kbit/s when txBytes > 0
and is absent (never zero) when txBytes = 0; the same formula and absence
rule hold for the RX bitrate over rxBytes.  The run duration the program uses
is 24 s (stop 25 s minus start 1 s), and at txBytes = 51200 with that
duration the bitrate is 256/15 = 17.0666... kbit/s, which prints as 17.0667
(it lies within 1/20000 of that 4-decimal reading). -/
theorem txBitrateKbps_reduction (d : ℚ) (i : ℕ) (s : FlowRecord) (hd : 0 < d) :
    (0 < s.txBytes →
      (reduceFlow d i s).txBitrateKbps = some ((s.txBytes : ℚ) * 8 / (d * 1000))) ∧
    (s.txBytes = 0 → (reduceFlow d i s).txBitrateKbps = none) ∧
    (0 < s.rxBytes →
      (reduceFlow d i s).rxBitrateKbps = some ((s.rxBytes : ℚ) * 8 / (d * 1000))) ∧
    (s.rxBytes = 0 → (reduceFlow d i s).rxBitrateKbps = none) ∧
    simulationTime = 24 ∧
    (s.txBytes = 51200 → d = simulationTime →
      (reduceFlow d i s).txBitrateKbps = some (256 / 15) ∧
      |(256 / 15 : ℚ) - 17.0667| < 1 / 20000) := by
  refine ⟨?_, ?_, ?_, ?_, ?_, ?_⟩
  · intro h
    simp [reduceFlow, h]
  · intro h
    simp [reduceFlow, h]
  · intro h
    simp [reduceFlow, h]
  · intro h
    simp [reduceFlow, h]
  · norm_num [simulationTime, kSimulationStopTime, kSimulationStartTime]
  · intro h51 hdsim
    have hsim : simulationTime = 24 := by
      norm_num [simulationTime, kSimulationStopTime, kSimulationStartTime]
    subst hdsim
    constructor
    · rw [hsim]
      simp [reduceFlow, h51]
      norm_num
    · rw [abs_sub_lt_iff]
      norm_num

/-- Witness for C2 at the spec's example: txBytes = 51200, duration 24 s. -/
theorem txBitrateKbps_reduction_witness :
    (reduceFlow 24 2 ⟨51200, 0, 10, 0, 2, 0⟩).txBitrateKbps = some (256 / 15) ∧
    (reduceFlow 24 2 ⟨51200, 0, 10, 0, 2, 0⟩).rxBitrateKbps = none := by
  have h := txBitrateKbps_reduction 24 2 ⟨51200, 0, 10, 0, 2, 0⟩ (by norm_num)
  constructor
  · have h1 := h.1 (by decide)
    rw [h1]
    norm_num
  · exact h.2.2.2.1 rfl

/-- C3: the reduced mean delay equals delaySum / rxPackets when rxPackets > 0
and is absent (printed "None", never zero) when rxPackets = 0. -/
theorem meanDelay_reduction (d : ℚ) (i : ℕ) (s : FlowRecord) :
    (0 < s.rxPackets →
      (reduceFlow d i s).meanDelay = some (s.delaySum / (s.rxPackets : ℚ))) ∧
    (s.rxPackets = 0 → (reduceFlow d i s).meanDelay = none) := by
  constructor
  · intro h
    simp [reduceFlow, h]
  · intro h
    simp [reduceFlow, h]

/-- Witness for C3: delaySum = 8 s over rxPackets = 4 gives mean delay 2 s,
and a record with rxPackets = 0 gives an absent mean delay. -/
theorem meanDelay_reduction_witness :
    (reduceFlow 24 2 ⟨0, 0, 0, 4, 0, 8⟩).meanDelay = some 2 ∧
    (reduceFlow 24 2 ⟨0, 0, 10, 0, 2, 0⟩).meanDelay = none := by
  constructor
  · have h := (meanDelay_reduction 24 2 ⟨0, 0, 0, 4, 0, 8⟩).1 (by decide)
    rw [h]
    norm_num
  · exact (meanDelay_reduction 24 2 ⟨0, 0, 10, 0, 2, 0⟩).2 rfl

/-- C4: for every n ≥ 2 the traffic pattern installs exactly one echo client
per node, in node order, where the client on node i targets node (i+1) mod n
at the fixed port — including the client on node n-1 targeting node 0 — every
destination lies in [0, n), and exactly one listening sink is installed, at
node n-1 on the fixed port. -/
theorem ring_traffic_pattern (n interval maxPackets : ℕ) (h : 2 ≤ n) :
    ((SetupApplications n interval maxPackets).clients.map ClientApp.node = List.range n) ∧
    (∀ c ∈ (SetupApplications n interval maxPackets).clients,
      c.destNode = (c.node + 1) % n ∧ c.destNode < n ∧ c.destPort = kPort) ∧
    (∃ c ∈ (SetupApplications n interval maxPackets).clients,
      c.node = n - 1 ∧ c.destNode = 0) ∧
    (SetupApplications n interval maxPackets).sinks = [n - 1] ∧
    (SetupApplications n interval maxPackets).sinkPort = kPort := by
  refine ⟨?_, ?_, ?_, rfl, rfl⟩
  · simp [SetupApplications, List.map_map, Function.comp_def]
  · intro c hc
    simp only [SetupApplications, List.mem_map, List.mem_range] at hc
    obtain ⟨i, hi, rfl⟩ := hc
    exact ⟨rfl, Nat.mod_lt _ (by omega), rfl⟩
  · refine ⟨{ node := n - 1, destNode := (n - 1 + 1) % n, destPort := kPort
            , maxPackets := maxPackets, intervalMs := interval
            , packetSize := kPacketSize }, ?_, rfl, ?_⟩
    · exact List.mem_map.mpr ⟨n - 1, List.mem_range.mpr (by omega), rfl⟩
    · have hn : n - 1 + 1 = n := by omega
      rw [hn, Nat.mod_self]

/-- Witness for C4 at n = 4: one client per node, the client on node 3
targets node 0, and the single sink is node 3. -/
theorem ring_traffic_pattern_witness :
    ((SetupApplications 4 5 10).clients.map ClientApp.node = List.range 4) ∧
    (∃ c ∈ (SetupApplications 4 5 10).clients, c.node = 3 ∧ c.destNode = 0) ∧
    (SetupApplications 4 5 10).sinks = [3] := by
  have h := ring_traffic_pattern 4 5 10 (by decide)
  exact ⟨h.1, h.2.2.1, h.2.2.2.1⟩

/-- C5 counterexample: invoked with N = 1 the application setup does not fail
at all — the source contains no size validation — and it does proceed to
install a self-addressing echo client: client 0 targets node (0+1) mod 1 = 0,
its own node. -/
theorem setupApplications_one_self_addressing :
    (SetupApplications 1 5 10).clients
      = [{ node := 0, destNode := 0, destPort := kPort
         , maxPackets := 10, intervalMs := 5, packetSize := kPacketSize }] := by
  rfl

/-- C5 amended: SetupApplications performs no validation of the node count
and has no failure path; called with N = 1 it succeeds, installing a single
self-addressing client (client 0 targeting node 0) and the sink at node 0. -/
theorem setupApplications_one_no_failure :
    SetupApplications 1 5 10
      = { clients := [{ node := 0, destNode := 0, destPort := kPort
                      , maxPackets := 10, intervalMs := 5
                      , packetSize := kPacketSize }]
        , sinks := [0]
        , sinkPort := kPort } := by
  rfl

/-- C6: for a run with n nodes (n ≥ 2) the per-flow report covers exactly
the flow identifiers 2 through n inclusive — one report entry per identifier,
in strictly ascending identifier order — and identifiers 0 and 1 are never
reported. -/
theorem reported_flow_ids (stats : List (ℕ × FlowRecord)) (n : ℕ) (h : 2 ≤ n) :
    ((PrintFlowStatistics stats n).map FlowReportLine.flowId = List.range' 2 (n - 1)) ∧
    (∀ i, (∃ line ∈ PrintFlowStatistics stats n, line.flowId = i) ↔ 2 ≤ i ∧ i ≤ n) ∧
    ((PrintFlowStatistics stats n).map FlowReportLine.flowId).Pairwise (· < ·) ∧
    (¬ ∃ line ∈ PrintFlowStatistics stats n, line.flowId = 0) ∧
    (¬ ∃ line ∈ PrintFlowStatistics stats n, line.flowId = 1) := by
  have hmap : (PrintFlowStatistics stats n).map FlowReportLine.flowId
      = List.range' 2 (n - 1) := by
    simp [PrintFlowStatistics, reportedFlowIds, List.map_map, Function.comp_def, reduceFlow]
  have hmem : ∀ i, (∃ line ∈ PrintFlowStatistics stats n, line.flowId = i)
      ↔ 2 ≤ i ∧ i ≤ n := by
    intro i
    constructor
    · rintro ⟨line, hline, rfl⟩
      have hm : line.flowId ∈ (PrintFlowStatistics stats n).map FlowReportLine.flowId :=
        List.mem_map_of_mem _ hline
      rw [hmap, List.mem_range'_1] at hm
      omega
    · intro hi
      have hm : i ∈ (PrintFlowStatistics stats n).map FlowReportLine.flowId := by
        rw [hmap, List.mem_range'_1]
        omega
      obtain ⟨line, hline, hf⟩ := List.mem_map.mp hm
      exact ⟨line, hline, hf⟩
  refine ⟨hmap, hmem, ?_, ?_, ?_⟩
  · rw [hmap]
    exact List.pairwise_lt_range' 2 (n - 1)
  · rw [hmem 0]
    omega
  · rw [hmem 1]
    omega

/-- Witness for C6 at n = 3 with an empty statistics map: the reported flow
identifiers are exactly 2 and 3, and identifier 0 is never reported. -/
theorem reported_flow_ids_witness :
    ((PrintFlowStatistics [] 3).map FlowReportLine.flowId = List.range' 2 2) ∧
    (¬ ∃ line ∈ PrintFlowStatistics [] 3, line.flowId = 0) := by
  have h := reported_flow_ids [] 3 (by decide)
  exact ⟨h.1, h.2.2.2.1⟩

/-- C7: the sweep executes exactly one run per node count n in [2, 30],
in strictly ascending order, fully sequentially: in the flattened event
trace, every step of run n — creation through engine destruction and
reporting — forms one contiguous block placed after all runs with smaller
node counts and before all runs with larger ones. -/
theorem sweep_sequential (interval maxPackets : ℕ)
    (statsOf : ℕ → List (ℕ × FlowRecord)) (n : ℕ) (h2 : 2 ≤ n) (h30 : n ≤ 30) :
    ((mainSweep interval maxPackets statsOf).map Prod.fst = List.range' 2 29) ∧
    ((mainSweep interval maxPackets statsOf).map Prod.fst).Pairwise (· < ·) ∧
    (∀ m, m ∈ (mainSweep interval maxPackets statsOf).map Prod.fst ↔ 2 ≤ m ∧ m ≤ 30) ∧
    mainTrace interval maxPackets statsOf
      = ((List.range' 2 (n - 2)).flatMap
            (fun m => RunSimulation m interval maxPackets (statsOf m)))
        ++ RunSimulation n interval maxPackets (statsOf n)
        ++ ((List.range' (n + 1) (30 - n)).flatMap
            (fun m => RunSimulation m interval maxPackets (statsOf m))) := by
  have hmap : (mainSweep interval maxPackets statsOf).map Prod.fst
      = List.range' 2 29 := by
    simp [mainSweep, List.map_map, Function.comp_def]
  refine ⟨hmap, ?_, ?_, ?_⟩
  · rw [hmap]
    exact List.pairwise_lt_range' 2 29
  · intro m
    rw [hmap, List.mem_range'_1]
    omega
  · have htr : mainTrace interval maxPackets statsOf
        = (List.range' 2 29).flatMap
            (fun m => RunSimulation m interval maxPackets (statsOf m)) := by
      simp [mainTrace, mainSweep, List.flatMap, List.map_map, Function.comp_def]
    have hsplit : List.range' 2 29 = List.range' 2 (n - 2) ++ List.range' n (31 - n) := by
      have happ := List.range'_append_1 2 (n - 2) (31 - n)
      rw [show 2 + (n - 2) = n by omega] at happ
      rw [show 31 - n + (n - 2) = 29 by omega] at happ
      exact happ.symm
    have hcons : List.range' n (31 - n) = n :: List.range' (n + 1) (30 - n) := by
      have hsucc := List.range'_succ n (30 - n) 1
      rw [show 30 - n + 1 = 31 - n by omega] at hsucc
      exact hsucc
    rw [htr, hsplit, hcons, List.flatMap_append, List.flatMap_cons, List.append_assoc]

/-- Witness for C7 at n = 2 with empty per-run statistics. -/
theorem sweep_sequential_witness :
    ((mainSweep 5 10 (fun _ => [])).map Prod.fst = List.range' 2 29) ∧
    mainTrace 5 10 (fun _ => [])
      = ((List.range' 2 0).flatMap (fun m => RunSimulation m 5 10 []))
        ++ RunSimulation 2 5 10 []
        ++ ((List.range' 3 28).flatMap (fun m => RunSimulation m 5 10 [])) := by
  have h := sweep_sequential 5 10 (fun _ => []) 2 (by decide) (by decide)
  exact ⟨h.1, h.2.2.2⟩

/-- C8: every run with node count n writes exactly two artifact files, whose
names are determined solely by n: the flow report flowmonitor-n-nodes.xml
and the animation trace anim-n-nodes.xml, in that order. -/
theorem run_artifacts (n interval maxPackets : ℕ) (stats : List (ℕ × FlowRecord)) :
    artifactNames (RunSimulation n interval maxPackets stats)
      = ["flowmonitor-" ++ toString n ++ "-nodes.xml",
         "anim-" ++ toString n ++ "-nodes.xml"] ∧
    (artifactNames (RunSimulation n interval maxPackets stats)).length = 2 := by
  exact ⟨rfl, rfl⟩

/-- C9: the animation trace assigns node i the constant position (10·i, 0)
while the installed grid topology places node i at (5·(i mod 6), 10·(i div 6));
for every node i ≥ 1 the two positions disagree. -/
theorem animation_position_mismatch (i : ℕ) (h : 1 ≤ i) :
    animPosition i = ((i : ℚ) * 10, 0) ∧
    gridPosition i = (((i % 6 : ℕ) : ℚ) * 5, ((i / 6 : ℕ) : ℚ) * 10) ∧
    animPosition i ≠ gridPosition i := by
  refine ⟨rfl, ?_, ?_⟩
  · simp only [gridPosition, kMinX, kMinY, kDeltaX, kDeltaY, kGridWidth, zero_add]
  · intro heq
    have hx := congrArg Prod.fst heq
    have hy := congrArg Prod.snd heq
    simp only [animPosition, gridPosition, kMinX, kMinY, kDeltaX, kDeltaY,
      kGridWidth, zero_add] at hx hy
    have hx' : i * 10 = (i % 6) * 5 := by exact_mod_cast hx
    have hy' : (0 : ℕ) = (i / 6) * 10 := by exact_mod_cast hy
    omega

/-- Witness for C9 at i = 1: the animation places node 1 at (10, 0) while
the grid places it at (5, 0). -/
theorem animation_position_mismatch_witness :
    animPosition 1 ≠ gridPosition 1 :=
  (animation_position_mismatch 1 (by decide)).2.2

/-- C10: when the statistics map lacks an entry for an identifier i in the
reported range, the reporting loop neither fails nor skips it: the map
lookup yields the value-initialized all-zero record, whose report line has
absent ("None") TX/RX bitrates and mean delay, 0 TX and RX packets, and the
NaN loss ratio that 0/0 produces; and every identifier of the range is still
reported. -/
theorem missing_flow_reported_as_default (stats : List (ℕ × FlowRecord)) (n i : ℕ)
    (hi : i ∈ reportedFlowIds n) (hmiss : stats.lookup i = none) :
    ({ flowId := i, txBitrateKbps := none, rxBitrateKbps := none
     , txPackets := 0, rxPackets := 0, meanDelay := none
     , lossRatioPercent := DVal.nan } : FlowReportLine) ∈ PrintFlowStatistics stats n ∧
    (PrintFlowStatistics stats n).map FlowReportLine.flowId = reportedFlowIds n := by
  constructor
  · have hz : getStats stats i = zeroFlowRecord := by
      simp [getStats, hmiss]
    have hred : reduceFlow simulationTime i (getStats stats i)
        = { flowId := i, txBitrateKbps := none, rxBitrateKbps := none
          , txPackets := 0, rxPackets := 0, meanDelay := none
          , lossRatioPercent := DVal.nan } := by
      rw [hz]
      simp [reduceFlow, zeroFlowRecord, ddiv, dmul]
    rw [← hred]
    exact List.mem_map_of_mem _ hi
  · simp [PrintFlowStatistics, List.map_map, Function.comp_def, reduceFlow]

/-- Witness for C10: with an empty statistics map and n = 3, flow 2 is
reported with the all-default line. -/
theorem missing_flow_reported_as_default_witness :
    ({ flowId := 2, txBitrateKbps := none, rxBitrateKbps := none
     , txPackets := 0, rxPackets := 0, meanDelay := none
     , lossRatioPercent := DVal.nan } : FlowReportLine) ∈ PrintFlowStatistics [] 3 :=
  (missing_flow_reported_as_default [] 3 2 (by decide) rfl).1

end Netsim
